import Mathlib

/-!
Verification of the multi-agent weather-query orchestrator
(`python_src/orchestrator/agent_orchestrator.py` and
`python_src/agents/root_agent.py`) as a shallow embedding.

Conventions of the embedding:
  * Python dicts whose key sets are fixed by the code become structures;
    a key that the code may leave absent becomes an `Option` field
    (`none` = key absent).
  * A coroutine that may raise becomes a value of `Except String α`
    (`Except.error msg` = the coroutine raised an exception whose string
    form is `msg`).
  * The behaviour of the specialized agents (out of scope per the spec,
    which treats them as black-box collaborators) is a parameter
    `beh : String → Except String AgentResp` giving, for each role name,
    the settled outcome of `agent.process_request(query, context)` for
    the query at hand.
  * Wall-clock values (`timestamp`, `duration`) are time-dependent and
    are omitted from the embedded records; no claim under verification
    mentions their values.
-/

namespace WeatherOrchestrator

/-- Character-level lowercasing mirroring Python `str.lower()` on the
ASCII range (all keyword tables in the source are ASCII). -/
def lowerChar (c : Char) : Char :=
  if c.toNat ≥ 65 ∧ c.toNat ≤ 90 then Char.ofNat (c.toNat + 32) else c

/-- `String.lower` of the query, character by character. -/
def lowerStr (s : String) : String :=
  ⟨s.data.map lowerChar⟩

/-- Python substring test `w in s` (contiguous substring containment). -/
def strContains (s w : String) : Bool :=
  s.data.tails.any (fun t => w.data.isPrefixOf t)

/-- Python `any(word in query_lower for word in words)`. -/
def containsAny (s : String) (words : List String) : Bool :=
  words.any (fun w => strContains s w)

/-- Keyword table `keywords['data']` in `analyze_query`. -/
def dataKeywords : List String :=
  ["historical", "records", "statistics", "data", "trends"]

/-- Keyword table `keywords['forecast']` in `analyze_query`. -/
def forecastKeywords : List String :=
  ["forecast", "prediction", "upcoming", "future", "expected"]

/-- Keyword table `keywords['emergency']` in `analyze_query`. -/
def emergencyKeywords : List String :=
  ["hurricane", "tornado", "flood", "evacuation", "emergency", "disaster"]

/-- Keyword table `keywords['location']` in `analyze_query`. -/
def locationKeywords : List String :=
  ["city", "county", "state", "zip", "coordinates", "area"]

/-- The `analysis` dict built by `RootAgent.analyze_query`. -/
structure Analysis where
  atype : String
  urgency : String
  location_based : Bool
  time_sensitive : Bool
deriving DecidableEq

/-- Initial value of the `analysis` dict in `analyze_query`. -/
def analysisInit : Analysis :=
  ⟨"general", "medium", false, false⟩

/-- `RootAgent.analyze_query`: four sequential keyword checks mutating
the analysis dict. -/
def analyze_query (query : String) : Analysis :=
  let ql := lowerStr query
  let a1 := if containsAny ql emergencyKeywords then
      { analysisInit with urgency := "high", atype := "emergency" }
    else analysisInit
  let a2 := if containsAny ql forecastKeywords then
      { a1 with atype := "forecast", time_sensitive := true }
    else a1
  let a3 := if containsAny ql dataKeywords then
      { a2 with atype := "data_analysis" }
    else a2
  if containsAny ql locationKeywords then
    { a3 with location_based := true }
  else a3

/-- `RootAgent.determine_required_agents`: list built with
`append`/`extend` exactly as in the source. -/
def determine_required_agents (analysis : Analysis) : List String :=
  let agents : List String := []
  if analysis.atype = "emergency" then
    agents ++ ["forecast", "data", "insights"]
  else if analysis.atype = "forecast" then
    let agents := agents ++ ["forecast"]
    if analysis.location_based then agents ++ ["data"] else agents
  else if analysis.atype = "data_analysis" then
    agents ++ ["data", "insights"]
  else
    agents ++ ["forecast"]

/-- The `details` value of an agent payload: a Python value that is
either a list or a single (non-list) item. Item payloads are opaque
strings. -/
inductive Details where
  | single : String → Details
  | many : List String → Details
deriving DecidableEq

/-- The `data` mapping of a successful agent response; each field is
`none` when the corresponding key is absent from the dict. -/
structure RespData where
  summary : Option String
  details : Option Details
  recommendations : Option (List String)
  sources : Option (List String)
  emergency_actions : Option (List String)
deriving DecidableEq

/-- A settled agent response: `generate_success_response` produces a
dict containing `success: True` and `data`; an error-shaped dict
(`{'error': True, 'message': m}`) has no `success` key, so
`response.get('success')` is falsy on it. -/
inductive AgentResp where
  | success : RespData → AgentResp
  | failure : String → AgentResp
deriving DecidableEq

/-- An element of the list returned by `coordinate_agents`:
`{'agent_type': …, 'response': …}` (the timestamp key is omitted, see
the header). -/
structure Entry where
  agent_type : String
  response : AgentResp
deriving DecidableEq

/-- The synthesis dict built by `RootAgent.synthesize_response`.
`alert`/`immediate_actions` are `none` when the keys were never
written. -/
structure Synthesis where
  summary : String
  details : List String
  recommendations : List String
  urgency : String
  sources : List String
  alert : Option Bool
  immediate_actions : Option (List String)
deriving DecidableEq

/-- One iteration of the aggregation loop in `synthesize_response`:
skip entries whose inner response is not marked successful, then fold
each present field into the synthesis dict. -/
def foldEntry (syn : Synthesis) (e : Entry) : Synthesis :=
  match e.response with
  | AgentResp.failure _ => syn
  | AgentResp.success d =>
    let s1 := match d.summary with
      | some s => { syn with summary := syn.summary ++ s ++ " " }
      | none => syn
    let s2 := match d.details with
      | some (Details.many l) => { s1 with details := s1.details ++ l }
      | some (Details.single v) => { s1 with details := s1.details ++ [v] }
      | none => s1
    let s3 := match d.recommendations with
      | some r => { s2 with recommendations := s2.recommendations ++ r }
      | none => s2
    match d.sources with
    | some src => { s3 with sources := s3.sources ++ src }
    | none => s3

/-- The fixed fallback actions of `generate_emergency_actions`. -/
def fallbackActions : List String :=
  ["Monitor weather conditions closely",
   "Review emergency preparedness plans",
   "Stay informed through official channels"]

/-- One iteration of the loop in `generate_emergency_actions`. -/
def genActionsStep (acc : List String) (e : Entry) : List String :=
  match e.response with
  | AgentResp.success d =>
    match d.emergency_actions with
    | some ea => acc ++ ea
    | none => acc
  | AgentResp.failure _ => acc

/-- `RootAgent.generate_emergency_actions`: collect the
`emergency_actions` of every successful response, falling back to three
fixed actions when nothing was collected. -/
def generate_emergency_actions (responses : List Entry) : List String :=
  let actions := responses.foldl genActionsStep []
  if actions = [] then fallbackActions else actions

/-- The `emergency_actions` contribution of a single entry (empty for
failed entries and for successful ones without the key). -/
def eaOf (e : Entry) : List String :=
  match e.response with
  | AgentResp.success d => d.emergency_actions.getD []
  | AgentResp.failure _ => []

/-- Concatenation of the `emergency_actions` of every successful entry,
in sequence order. -/
def eaConcat (rs : List Entry) : List String :=
  (rs.map eaOf).flatten

/-- `RootAgent.synthesize_response` (timestamp key omitted, see the
header). -/
def synthesize_response (agent_responses : List Entry) (analysis : Analysis) :
    Synthesis :=
  let base : Synthesis := ⟨"", [], [], analysis.urgency, [], none, none⟩
  let syn := agent_responses.foldl foldEntry base
  if analysis.urgency = "high" then
    { syn with alert := some true,
               immediate_actions := some (generate_emergency_actions agent_responses) }
  else syn

/-- The key set of `self.agents` on an initialized orchestrator, in the
insertion order of the `agent_types` dict of `AgentOrchestrator.__init__`. -/
def standardRegistry : List String :=
  ["root", "data", "forecast", "insights"]

/-- The roles that survive the registry check at the top of
`coordinate_agents` (`if agent_type not in self.agents: continue`),
in input order.  A task is created for exactly these roles, in this
order. -/
def rolesFiltered (registry roles : List String) : List String :=
  roles.filter (fun r => registry.contains r)

/-- The task list built by `coordinate_agents`: one
`_call_agent_async` invocation per registered role.  On success the
wrapper labels the result with the role captured at task-creation
time; an exception propagates to `asyncio.gather`. -/
def mkTasks (registry roles : List String) (beh : String → Except String AgentResp) :
    List (Except String Entry) :=
  (rolesFiltered registry roles).map
    (fun r => (beh r).map (fun resp => Entry.mk r resp))

/-- The response-processing loop after `asyncio.gather(...,
return_exceptions=True)`: `for i, response in enumerate(agent_responses)`;
an exception at position `i` becomes an error entry labeled
`agent_types[i]` — note that `i` indexes the *unfiltered* `agent_types`
parameter while `agent_responses` has one element per *filtered* role.
(`getD _ ""` is never the default case: there are at most as many
responses as input roles.) -/
def processResponses (agent_types : List String)
    (agent_responses : List (Except String Entry)) : List Entry :=
  agent_responses.enum.map (fun p =>
    match p.2 with
    | Except.ok entry => entry
    | Except.error msg => ⟨agent_types.getD p.1 "", AgentResp.failure msg⟩)

/-- `AgentOrchestrator.coordinate_agents` with `asyncio.gather` taken at
its documented semantics: the gathered list holds task `i`'s outcome at
index `i`. -/
def coordinate_agents (registry roles : List String)
    (beh : String → Except String AgentResp) : List Entry :=
  processResponses roles (mkTasks registry roles beh)

/-- Event-loop model of `asyncio.gather`: `sched` is the order in which
the pending tasks complete; each completion stores task `j`'s settled
outcome in slot `j` of a result array.  The returned list is the slot
array in index order (`none` = task never completed). -/
def gatherSched {α : Type} (tasks : List α) (sched : List Nat) : List (Option α) :=
  sched.foldl (fun slots j => slots.set j tasks[j]?)
    (List.replicate tasks.length none)

/-- Collapse a slot array in which every task has completed. -/
def allSome {α : Type} : List (Option α) → Option (List α)
  | [] => some []
  | none :: _ => none
  | some a :: rest => Option.map (fun l => a :: l) (allSome rest)

/-- `coordinate_agents` run on an explicit completion schedule: `none`
when some launched task never completed (gather would not have
returned). -/
def coordinate_agents_sched (registry roles : List String)
    (beh : String → Except String AgentResp) (sched : List Nat) :
    Option (List Entry) :=
  (allSome (gatherSched (mkTasks registry roles beh) sched)).map
    (processResponses roles)

/-- The `active_requests[request_id]` tracking dict (the time-valued
`start_time`/`duration`/`response` keys are omitted, see the header). -/
structure ActiveRecord where
  query : String
  status : String
  error : Option String
deriving DecidableEq

/-- A `request_history` element appended by `process_user_query` — note
its key set `{request_id, query, response, duration, timestamp}`
contains no `status` key (time-valued keys omitted, see the header). -/
structure HistoryEntry where
  request_id : String
  query : String
  response : AgentResp
deriving DecidableEq

/-- Orchestrator bookkeeping state: the append-only history and the
insertion-ordered `active_requests` dict (as an association list). -/
structure OrchState where
  request_history : List HistoryEntry
  active_requests : List (String × ActiveRecord)
deriving DecidableEq

/-- Python dict assignment `d[k] = v` on an insertion-ordered
association list: replace in place if the key exists, else append. -/
def setKey : List (String × ActiveRecord) → String → ActiveRecord →
    List (String × ActiveRecord)
  | [], k, v => [(k, v)]
  | (k1, w) :: t, k, v =>
    if k1 = k then (k, v) :: t else (k1, w) :: setKey t k v

/-- Python `d[k].update(...)`: mutate the record stored at key `k`. -/
def updateByKey : List (String × ActiveRecord) → String →
    (ActiveRecord → ActiveRecord) → List (String × ActiveRecord)
  | [], _, _ => []
  | (k1, w) :: t, k, f =>
    if k1 = k then (k, f w) :: t else (k1, w) :: updateByKey t k f

/-- Python dict lookup `d[k]`. -/
def lookupKey : List (String × ActiveRecord) → String → Option ActiveRecord
  | [], _ => none
  | (k1, w) :: t, k => if k1 = k then some w else lookupKey t k

/-- The envelope returned by `process_user_query`:
`_format_response` on success, `_format_error_response` on a pipeline
exception. -/
inductive Envelope where
  | success : String → AgentResp → Envelope
  | failure : String → String → Envelope
deriving DecidableEq

/-- Result of one `process_user_query` call: the updated bookkeeping
state, the returned envelope, and the sequence of writes the call made
to the `status` key of a tracking record (in program order). -/
structure ProcResult where
  state : OrchState
  envelope : Envelope
  statusWrites : List (String × String)
deriving DecidableEq

/-- `AgentOrchestrator.process_user_query` on an initialized
orchestrator.  `rid` is the generated request id; `rootCall` is the
settled outcome of `root_agent.process_request(query, …)` (which may
raise).  The success branch updates the tracking record to `completed`
and appends one history entry; the exception branch updates the
tracking record to `error` and appends nothing. -/
def process_user_query (st : OrchState) (rid query : String)
    (rootCall : Except String AgentResp) : ProcResult :=
  let active1 := setKey st.active_requests rid ⟨query, "processing", none⟩
  match rootCall with
  | Except.ok resp =>
    { state :=
        { request_history := st.request_history ++ [⟨rid, query, resp⟩],
          active_requests :=
            updateByKey active1 rid (fun r => { r with status := "completed" }) },
      envelope := Envelope.success rid resp,
      statusWrites := [(rid, "processing"), (rid, "completed")] }
  | Except.error msg =>
    { state :=
        { request_history := st.request_history,
          active_requests :=
            updateByKey active1 rid
              (fun r => { r with status := "error", error := some msg }) },
      envelope := Envelope.failure rid msg,
      statusWrites := [(rid, "processing"), (rid, "error")] }

/-- The hard-coded `required_agents` list of `handle_emergency_query`. -/
def emergencyRequiredAgents : List String :=
  ["forecast", "data", "insights"]

/-- The envelope returned by `handle_emergency_query` (timestamp key
omitted, see the header). -/
structure EmergencyEnvelope where
  rtype : String
  analysis : AgentResp
  agent_responses : List Entry
  priority : String
deriving DecidableEq

/-- `AgentOrchestrator.handle_emergency_query`: coordinate the fixed
three roles, then run one extra insights pass
(`analysis_type='emergency_correlation'`, modeled by `insightsCorr`)
over the gathered responses.  The second component is the sequence of
responder invocations the call issues: the registered coordinated
roles in order, then the extra insights call. -/
def handle_emergency_query (registry : List String)
    (beh : String → Except String AgentResp)
    (insightsCorr : List Entry → AgentResp) :
    EmergencyEnvelope × List String :=
  let agent_responses := coordinate_agents registry emergencyRequiredAgents beh
  let analysis := insightsCorr agent_responses
  (⟨"emergency_response", analysis, agent_responses, "critical"⟩,
   rolesFiltered registry emergencyRequiredAgents ++ ["insights"])

/-- An element of the list returned by `get_request_history`
(projection of a history entry; time-valued keys omitted, see the
header). -/
structure HistoryView where
  request_id : String
  query : String
deriving DecidableEq

/-- The display truncation `req['query'][:100] + ('...' if
len(req['query']) > 100 else '')`. -/
def truncQuery (q : String) : String :=
  String.mk (q.data.take 100) ++ (if 100 < q.data.length then "..." else "")

/-- Python slice `l[-limit:]` for a nonnegative `limit`: the whole list
when `limit = 0` (since `-0 == 0`), otherwise the last
`min limit (length l)` elements. -/
def lastSlice {α : Type} (l : List α) (limit : Nat) : List α :=
  if limit = 0 then l else l.drop (l.length - limit)

/-- `AgentOrchestrator.get_request_history`. -/
def get_request_history (history : List HistoryEntry) (limit : Nat) :
    List HistoryView :=
  (lastSlice history limit).map (fun r => ⟨r.request_id, truncQuery r.query⟩)

/-- Concrete responder-result list used to instantiate hypotheses. -/
def rsW : List Entry :=
  [⟨"forecast", AgentResp.success ⟨none, none, none, none, some ["Evacuate coastal areas"]⟩⟩,
   ⟨"data", AgentResp.failure "timeout"⟩]

/-- Concrete responder behaviour used to instantiate hypotheses: the
data agent raises, the others return plain successes. -/
def behW : String → Except String AgentResp := fun r =>
  if r = "data" then Except.error "data agent down"
  else Except.ok (AgentResp.success ⟨some "Sunny.", none, none, some ["noaa"], none⟩)

/-- Concrete three-entry request history used to instantiate hypotheses. -/
def histW : List HistoryEntry :=
  [⟨"r1", "alpha", AgentResp.failure "x"⟩,
   ⟨"r2", "beta", AgentResp.success ⟨none, none, none, none, none⟩⟩,
   ⟨"r3", "gamma", AgentResp.success ⟨some "ok", none, none, none, none⟩⟩]

/-! ### Helper lemmas -/

lemma genActionsStep_eq (acc : List String) (e : Entry) :
    genActionsStep acc e = acc ++ eaOf e := by
  unfold genActionsStep eaOf
  cases e.response with
  | success d =>
    rcases hea : d.emergency_actions with _ | ea <;> simp [hea, Option.getD]
  | failure m => simp

lemma foldl_genActionsStep (rs : List Entry) (acc : List String) :
    rs.foldl genActionsStep acc = acc ++ eaConcat rs := by
  induction rs generalizing acc with
  | nil => simp [eaConcat]
  | cons e t ih =>
    simp only [List.foldl_cons, genActionsStep_eq, ih, eaConcat, List.map_cons,
      List.flatten_cons, List.append_assoc]

lemma generate_emergency_actions_eq (rs : List Entry) :
    generate_emergency_actions rs =
      if eaConcat rs = [] then fallbackActions else eaConcat rs := by
  unfold generate_emergency_actions
  rw [foldl_genActionsStep, List.nil_append]

lemma generate_emergency_actions_ne_nil (rs : List Entry) :
    generate_emergency_actions rs ≠ [] := by
  rw [generate_emergency_actions_eq]
  split_ifs with h
  · intro hc
    exact absurd hc (by decide)
  · exact h

lemma synth_high (rs : List Entry) (a : Analysis) (h : a.urgency = "high") :
    (synthesize_response rs a).alert = some true ∧
    (synthesize_response rs a).immediate_actions =
      some (generate_emergency_actions rs) := by
  unfold synthesize_response
  rw [if_pos h]
  exact ⟨rfl, rfl⟩

/-! ### Claims about the Router and the Aggregator -/

/-- Claim C5: for every query analysis the Router
(`determine_required_agents`) returns `[forecast, data, insights]` for
type `emergency`; `[forecast]` plus `data` iff location-based for type
`forecast`; `[data, insights]` for type `data_analysis`; and
`[forecast]` in every other case.  The returned list has no duplicate
role and is never empty. -/
theorem determine_required_agents_policy (a : Analysis) :
    determine_required_agents a =
      (if a.atype = "emergency" then ["forecast", "data", "insights"]
       else if a.atype = "forecast" then
         if a.location_based then ["forecast", "data"] else ["forecast"]
       else if a.atype = "data_analysis" then ["data", "insights"]
       else ["forecast"]) ∧
    (determine_required_agents a).Nodup ∧
    determine_required_agents a ≠ [] := by
  unfold determine_required_agents
  split_ifs <;> refine ⟨rfl, by decide, by decide⟩

/-- Claim C7 (counterexample): merging an empty responder-result list
with a high-urgency analysis yields a synthesis whose `alert` key is
set (to `True`), contradicting the claim that `alert` is unset for
every merge of an empty sequence. -/
theorem synthesize_empty_alert_set_when_high :
    ¬ ((synthesize_response [] ⟨"general", "high", false, false⟩).alert = none) := by
  decide

/-- Claim C7 (amended): merging an empty responder-result list yields
an empty summary, empty details/recommendations/sources, and — when
the analysis urgency is not "high" — an unset `alert`; when the
urgency is "high" the urgency branch still fires, setting
`alert = True` and the three fallback `immediate_actions`. -/
theorem synthesize_empty_responses (a : Analysis) :
    synthesize_response [] a =
      (if a.urgency = "high" then
        ⟨"", [], [], a.urgency, [], some true, some fallbackActions⟩
      else
        ⟨"", [], [], a.urgency, [], none, none⟩) := by
  unfold synthesize_response
  split_ifs with h <;> rfl

/-- Claim C8: whenever the analysis urgency is "high", the synthesized
response has `alert = True`, and `immediate_actions` equals the
concatenation of the `emergency_actions` of every successful responder
result, or exactly the fixed three-element fallback list when that
concatenation is empty. -/
theorem synthesize_high_urgency_alert_actions (rs : List Entry) (a : Analysis)
    (h : a.urgency = "high") :
    (synthesize_response rs a).alert = some true ∧
    (synthesize_response rs a).immediate_actions =
      some (if eaConcat rs = [] then fallbackActions else eaConcat rs) := by
  obtain ⟨h1, h2⟩ := synth_high rs a h
  rw [generate_emergency_actions_eq] at h2
  exact ⟨h1, h2⟩

/-- Claim C8 (witness): the theorem instantiated at a concrete
high-urgency analysis and a concrete result list in which one
successful responder supplies an emergency action. -/
theorem synthesize_high_urgency_alert_actions_witness :
    (⟨"emergency", "high", false, false⟩ : Analysis).urgency = "high" ∧
    ((synthesize_response rsW ⟨"emergency", "high", false, false⟩).alert = some true ∧
     (synthesize_response rsW ⟨"emergency", "high", false, false⟩).immediate_actions =
       some (if eaConcat rsW = [] then fallbackActions else eaConcat rsW)) :=
  ⟨rfl, synthesize_high_urgency_alert_actions rsW ⟨"emergency", "high", false, false⟩ rfl⟩

/-- Claim C10: for every query containing an emergency keyword,
`analyze_query` reports urgency "high" (even when later keyword checks
override the analysis type), so the synthesized response for any
responder-result list carries `alert = True` and a nonempty
`immediate_actions` list. -/
theorem emergency_keyword_forces_alert (q : String)
    (h : containsAny (lowerStr q) emergencyKeywords = true) :
    (analyze_query q).urgency = "high" ∧
    ∀ rs : List Entry,
      (synthesize_response rs (analyze_query q)).alert = some true ∧
      ∃ acts, (synthesize_response rs (analyze_query q)).immediate_actions =
          some acts ∧ acts ≠ [] := by
  have hu : (analyze_query q).urgency = "high" := by
    unfold analyze_query
    simp only [h, if_true]
    split_ifs <;> rfl
  refine ⟨hu, fun rs => ?_⟩
  obtain ⟨h1, h2⟩ := synth_high rs (analyze_query q) hu
  exact ⟨h1, generate_emergency_actions rs, h2, generate_emergency_actions_ne_nil rs⟩

/-- Claim C10 (witness): the query "flood forecast" contains the
emergency keyword "flood", yet its analysis type is overridden to
"forecast" so the Router selects only the forecast role; the response
still carries the alert. -/
theorem emergency_keyword_forces_alert_witness :
    containsAny (lowerStr "flood forecast") emergencyKeywords = true ∧
    (analyze_query "flood forecast").atype = "forecast" ∧
    determine_required_agents (analyze_query "flood forecast") = ["forecast"] ∧
    (analyze_query "flood forecast").urgency = "high" ∧
    (synthesize_response [] (analyze_query "flood forecast")).alert = some true :=
  ⟨by decide, by decide, by decide,
   (emergency_keyword_forces_alert "flood forecast" (by decide)).1,
   ((emergency_keyword_forces_alert "flood forecast" (by decide)).2 []).1⟩

/-! ### Claims about the Coordinator -/

lemma gatherSched_foldl {α : Type} (tasks : List α) (sched : List Nat)
    (init : List (Option α)) (i : Nat) (hi : i < init.length) :
    (sched.foldl (fun slots j => slots.set j tasks[j]?) init)[i]? =
      if i ∈ sched then some tasks[i]? else init[i]? := by
  induction sched generalizing init with
  | nil => simp
  | cons j t ih =>
    have hlen : i < (init.set j tasks[j]?).length := by simpa using hi
    simp only [List.foldl_cons]
    rw [ih _ hlen]
    by_cases hij : i = j
    · subst hij
      by_cases him : i ∈ t
      · simp [him]
      · simp [him, List.getElem?_set_self hi]
    · by_cases him : i ∈ t
      · simp [him, hij]
      · have hne : (init.set j tasks[j]?)[i]? = init[i]? :=
          List.getElem?_set_ne (fun hji => hij hji.symm)
        simp [him, hij, hne]

lemma gatherSched_foldl_length {α : Type} (tasks : List α) (sched : List Nat)
    (init : List (Option α)) :
    (sched.foldl (fun slots j => slots.set j tasks[j]?) init).length =
      init.length := by
  induction sched generalizing init with
  | nil => rfl
  | cons j t ih => simp [List.foldl_cons, ih, List.length_set]

lemma gatherSched_length {α : Type} (tasks : List α) (sched : List Nat) :
    (gatherSched tasks sched).length = tasks.length := by
  unfold gatherSched
  rw [gatherSched_foldl_length, List.length_replicate]

lemma gatherSched_complete {α : Type} (tasks : List α) (sched : List Nat)
    (h : ∀ i, i < tasks.length → i ∈ sched) :
    gatherSched tasks sched = tasks.map some := by
  apply List.ext_getElem?
  intro n
  by_cases hn : n < tasks.length
  · rw [gatherSched, gatherSched_foldl tasks sched _ n (by simpa using hn),
      if_pos (h n hn), List.getElem?_map, List.getElem?_eq_getElem hn]
    rfl
  · have h1 : (gatherSched tasks sched)[n]? = none := by
      apply List.getElem?_eq_none
      rw [gatherSched_length]
      omega
    have h2 : (tasks.map some)[n]? = none := by
      apply List.getElem?_eq_none
      rw [List.length_map]
      omega
    rw [h1, h2]

lemma allSome_map_some {α : Type} (l : List α) : allSome (l.map some) = some l := by
  induction l with
  | nil => rfl
  | cons a t ih => simp [allSome, ih]

/-- Claim C1: for every role list (registered or not), every assignment
of results or exceptions to the responder invocations, and every
completion order of the launched tasks, `coordinate_agents` returns one
entry per registered role in role-list order: the entry at index `i` is
the settled outcome of invoking the `i`-th registered role — its
success entry when the invocation returned, or a failure entry carrying
the raised message when it raised — independent of the completion
schedule (unregistered roles are skipped without failing the call). -/
theorem coordinate_agents_order_preserving (registry roles : List String)
    (beh : String → Except String AgentResp) (sched : List Nat)
    (hs : ∀ i, i < (rolesFiltered registry roles).length → i ∈ sched) :
    coordinate_agents_sched registry roles beh sched =
      some (coordinate_agents registry roles beh) ∧
    (coordinate_agents registry roles beh).length =
      (rolesFiltered registry roles).length ∧
    ∀ (i : Nat) (r : String), (rolesFiltered registry roles)[i]? = some r →
      (∀ resp, beh r = Except.ok resp →
        (coordinate_agents registry roles beh)[i]? = some (Entry.mk r resp)) ∧
      (∀ msg, beh r = Except.error msg →
        ∃ lbl, (coordinate_agents registry roles beh)[i]? =
          some (Entry.mk lbl (AgentResp.failure msg))) := by
  have hlen : (mkTasks registry roles beh).length =
      (rolesFiltered registry roles).length := by
    simp [mkTasks]
  refine ⟨?_, ?_, ?_⟩
  · unfold coordinate_agents_sched coordinate_agents
    rw [gatherSched_complete _ _ (by rw [hlen]; exact hs), allSome_map_some]
    rfl
  · simp [coordinate_agents, processResponses, mkTasks, List.enum_length]
  · intro i r hr
    have htask : (mkTasks registry roles beh)[i]? =
        some ((beh r).map (fun resp => Entry.mk r resp)) := by
      simp [mkTasks, List.getElem?_map, hr]
    constructor
    · intro resp hok
      simp [coordinate_agents, processResponses, List.getElem?_map,
        List.getElem?_enum, htask, hok, Except.map]
    · intro msg herr
      refine ⟨roles.getD i "", ?_⟩
      simp [coordinate_agents, processResponses, List.getElem?_map,
        List.getElem?_enum, htask, herr, Except.map]

/-- Claim C1 (witness): two registered roles whose tasks complete in
reverse order; the scheduled run agrees with the order-preserving
result. -/
theorem coordinate_agents_order_preserving_witness :
    (∀ i, i < (rolesFiltered standardRegistry ["forecast", "data"]).length →
      i ∈ [1, 0]) ∧
    coordinate_agents_sched standardRegistry ["forecast", "data"] behW [1, 0] =
      some (coordinate_agents standardRegistry ["forecast", "data"] behW) :=
  ⟨by decide,
   (coordinate_agents_order_preserving standardRegistry ["forecast", "data"]
     behW [1, 0] (by decide)).1⟩

/-- Claim C2 (code-bug evaluation): with roles `["unknown", "data"]`
(the first absent from the registry) and a raising data agent, the
converted failure entry is labeled `"unknown"` — the skipped role —
instead of `"data"`, because the response-processing loop indexes the
unfiltered `agent_types` list with a position in the filtered task
list. -/
theorem coordinate_agents_mislabels_failure_after_skip :
    coordinate_agents standardRegistry ["unknown", "data"]
      (fun r => if r = "data" then Except.error "boom"
                else Except.ok (AgentResp.success ⟨none, none, none, none, none⟩)) =
      [⟨"unknown", AgentResp.failure "boom"⟩] := by
  decide

/-- Claim C4: `handle_emergency_query` on the initialized registry
issues invocations for exactly the roles forecast, data, insights —
then one additional insights correlation pass over the gathered
results — and returns an envelope with priority "critical"; this holds
for every responder behaviour, even though the Router on the plain
query "what is the temperature" would pick only the forecast role. -/
theorem handle_emergency_query_roles_and_priority
    (beh : String → Except String AgentResp)
    (insightsCorr : List Entry → AgentResp) :
    (handle_emergency_query standardRegistry beh insightsCorr).2 =
      ["forecast", "data", "insights", "insights"] ∧
    (handle_emergency_query standardRegistry beh insightsCorr).1.priority =
      "critical" ∧
    (handle_emergency_query standardRegistry beh insightsCorr).1.agent_responses =
      coordinate_agents standardRegistry emergencyRequiredAgents beh ∧
    (handle_emergency_query standardRegistry beh insightsCorr).1.analysis =
      insightsCorr (coordinate_agents standardRegistry emergencyRequiredAgents beh) ∧
    determine_required_agents (analyze_query "what is the temperature") =
      ["forecast"] :=
  ⟨rfl, rfl, rfl, rfl, by decide⟩

/-! ### Claims about the Orchestrator bookkeeping -/

lemma lookup_update_set (m : List (String × ActiveRecord)) (rid : String)
    (v : ActiveRecord) (f : ActiveRecord → ActiveRecord) :
    lookupKey (updateByKey (setKey m rid v) rid f) rid = some (f v) := by
  induction m with
  | nil => simp [setKey, updateByKey, lookupKey]
  | cons p t ih =>
    obtain ⟨k1, w⟩ := p
    by_cases hk : k1 = rid
    · subst hk
      simp [setKey, updateByKey, lookupKey]
    · simp [setKey, updateByKey, lookupKey, hk, ih]

/-- Claim C3 (counterexample): a `process_user_query` call whose root
pipeline raises appends nothing to the request history (starting from
an empty history, the history stays empty instead of gaining the one
record the claim requires). -/
theorem process_user_query_error_appends_nothing :
    ¬ ((process_user_query ⟨[], []⟩ "req1" "q" (Except.error "boom")).state.request_history.length
        = 1) := by
  decide

/-- Claim C3 (amended): a `process_user_query` call appends exactly one
history entry iff the pipeline succeeded, and appends nothing on a
pipeline exception; history entries carry no status key at all, while
the tracking record in `active_requests` ends with status "completed"
iff no pipeline exception occurred, and "error" (with the message)
otherwise. -/
theorem process_user_query_history_and_status (st : OrchState) (rid q : String)
    (rootCall : Except String AgentResp) :
    (process_user_query st rid q rootCall).state.request_history =
      st.request_history ++
        (match rootCall with
         | Except.ok resp => [⟨rid, q, resp⟩]
         | Except.error _ => []) ∧
    lookupKey (process_user_query st rid q rootCall).state.active_requests rid =
      some (match rootCall with
            | Except.ok _ => ⟨q, "completed", none⟩
            | Except.error msg => ⟨q, "error", some msg⟩) := by
  cases rootCall with
  | ok resp =>
    refine ⟨by simp [process_user_query], ?_⟩
    simpa [process_user_query] using
      lookup_update_set st.active_requests rid ⟨q, "processing", none⟩
        (fun r => { r with status := "completed" })
  | error msg =>
    refine ⟨by simp [process_user_query], ?_⟩
    simpa [process_user_query] using
      lookup_update_set st.active_requests rid ⟨q, "processing", none⟩
        (fun r => { r with status := "error", error := some msg })

/-- Claim C6: every `process_user_query` call creates the tracking
record with status "processing" and performs exactly one further status
write — to "completed" iff the root pipeline returned, to "error" iff
it raised — and the tracking record ends with that status; no other
status write occurs during the call. -/
theorem request_status_single_transition (st : OrchState) (rid q : String)
    (rootCall : Except String AgentResp) :
    ∃ s, (process_user_query st rid q rootCall).statusWrites =
        [(rid, "processing"), (rid, s)] ∧
      (s = "completed" ∨ s = "error") ∧
      ((∃ resp, rootCall = Except.ok resp) ↔ s = "completed") ∧
      ∃ rec, lookupKey (process_user_query st rid q rootCall).state.active_requests rid =
          some rec ∧ rec.status = s := by
  cases rootCall with
  | ok resp =>
    refine ⟨"completed", rfl, Or.inl rfl, ⟨fun _ => rfl, fun _ => ⟨resp, rfl⟩⟩,
      ⟨q, "completed", none⟩, ?_, rfl⟩
    simpa [process_user_query] using
      lookup_update_set st.active_requests rid ⟨q, "processing", none⟩
        (fun r => { r with status := "completed" })
  | error msg =>
    refine ⟨"error", rfl, Or.inr rfl, ⟨?_, ?_⟩,
      ⟨q, "error", some msg⟩, ?_, rfl⟩
    · rintro ⟨resp, h⟩
      exact Except.noConfusion h
    · intro h
      exact absurd h (by decide)
    · simpa [process_user_query] using
        lookup_update_set st.active_requests rid ⟨q, "processing", none⟩
          (fun r => { r with status := "error", error := some msg })

/-- Claim C9 (counterexample): `get_request_history` with `limit = 0`
on a one-entry history returns that entry (Python `l[-0:]` is the whole
list), not the `min(0, 1) = 0` entries the claim requires. -/
theorem get_request_history_zero_limit_returns_all :
    ¬ ((get_request_history [⟨"r1", "q1", AgentResp.failure "x"⟩] 0).length =
        min 0 [(⟨"r1", "q1", AgentResp.failure "x"⟩ : HistoryEntry)].length) := by
  decide

/-- Claim C9 (amended): for every history and every limit ≥ 1,
`get_request_history` returns exactly the `min limit length` most
recent entries — the suffix of the append-only log, so newest last —
each projected to its id and display-truncated query text; for
`limit = 0` the code instead returns the entire history. -/
theorem get_request_history_recent_slice (hist : List HistoryEntry) (limit : Nat)
    (h : 1 ≤ limit) :
    get_request_history hist limit =
      (hist.drop (hist.length - limit)).map
        (fun r => ⟨r.request_id, truncQuery r.query⟩) ∧
    (get_request_history hist limit).length = min limit hist.length := by
  have hne : ¬ (limit = 0) := by omega
  constructor
  · unfold get_request_history lastSlice
    rw [if_neg hne]
  · unfold get_request_history lastSlice
    rw [if_neg hne, List.length_map, List.length_drop]
    omega

/-- Claim C9 (witness): the amended theorem instantiated at a concrete
three-entry history with limit 2. -/
theorem get_request_history_recent_slice_witness :
    1 ≤ 2 ∧
    (get_request_history histW 2 =
      (histW.drop (histW.length - 2)).map
        (fun r => ⟨r.request_id, truncQuery r.query⟩) ∧
     (get_request_history histW 2).length = min 2 histW.length) :=
  ⟨by decide, get_request_history_recent_slice histW 2 (by decide)⟩

end WeatherOrchestrator
